import Mathlib

/-!
# Lifecycle of the tnamc engine

A shallow embedding of `src/engine.cpp`: `Engine::init`, `Engine::init_vulkan`,
`Engine::create_swapchain`, `Engine::destroy_swapchain`, `Engine::terminate`,
`Engine::run`, `Engine::draw` and the key callback `keyboardCallback`.

The engine only talks to GLFW, vk-bootstrap and Vulkan.  Every call that crosses
that boundary is recorded, in program order, in a trace of `Call`s; what the
outside world answers is given by an `Env`.  A C++ `throw` ends a run with
`Status.threw`; `value()` on a failed vk-bootstrap result ends it with
`Status.value_failed`.
-/

namespace Tnamc

/-- An API handle (`GLFWwindow*`, `VkInstance`, `VkDevice`, ...); `0` is the null handle. -/
abbrev Handle := Nat

/-! ## Constants of `glfw3.h` and `vulkan_core.h` -/

/-- From `glfw3.h`: `#define GLFW_TRUE 1`. -/
def GLFW_TRUE : Int := 1
/-- From `glfw3.h`: `#define GLFW_FALSE 0`. -/
def GLFW_FALSE : Int := 0
/-- From `glfw3.h`: `#define GLFW_PRESS 1`. -/
def GLFW_PRESS : Int := 1
/-- From `glfw3.h`: `#define GLFW_KEY_ESCAPE 256`. -/
def GLFW_KEY_ESCAPE : Int := 256
/-- From `glfw3.h`: `#define GLFW_CLIENT_API 0x00022001`. -/
def GLFW_CLIENT_API : Int := 0x00022001
/-- From `glfw3.h`: `#define GLFW_NO_API 0`. -/
def GLFW_NO_API : Int := 0
/-- From `glfw3.h`: `#define GLFW_RESIZABLE 0x00020003`. -/
def GLFW_RESIZABLE : Int := 0x00020003
/-- From `vulkan_core.h`: `VK_FORMAT_B8G8R8A8_UNORM = 44`. -/
def VK_FORMAT_B8G8R8A8_UNORM : Nat := 44
/-- From `vulkan_core.h`: `VK_COLOR_SPACE_SRGB_NONLINEAR_KHR = 0`. -/
def VK_COLOR_SPACE_SRGB_NONLINEAR_KHR : Nat := 0
/-- From `vulkan_core.h`: `VK_PRESENT_MODE_FIFO_KHR = 2`. -/
def VK_PRESENT_MODE_FIFO_KHR : Nat := 2
/-- From `vulkan_core.h`: `VK_IMAGE_USAGE_TRANSFER_DST_BIT = 0x00000002`. -/
def VK_IMAGE_USAGE_TRANSFER_DST_BIT : Nat := 2

/-! ## Data model -/

/-- A width and height pair (`VkExtent2D`, also the type of `window.size`). -/
structure VkExtent2D where
  width : Nat
  height : Nat
  deriving DecidableEq, Repr

/-- The pair given to `set_desired_format`. -/
structure VkSurfaceFormatKHR where
  format : Nat
  colorSpace : Nat
  deriving DecidableEq, Repr

/-- The global `struct Window window`. -/
structure Window where
  handle : Handle
  size : VkExtent2D
  title : String
  deriving DecidableEq, Repr

/-- The fields of `Engine` that `engine.cpp` reads or writes.  `instance_` is the
    C++ member `instance`. -/
structure Engine where
  is_init : Bool
  r_validation_layers : Bool
  instance_ : Handle
  debug_messenger : Handle
  surface : Handle
  device : Handle
  physical_device : Handle
  swapchain : Handle
  swapchain_image_format : Nat
  swapchain_extent : VkExtent2D
  swapchain_images : List Handle
  swapchain_image_views : List Handle
  deriving DecidableEq, Repr

/-- What GLFW keeps for the one window of the program: the close-request flag read by
    `glfwWindowShouldClose` and whether `keyboardCallback` is installed as key callback. -/
structure GlfwWindow where
  should_close : Bool
  key_callback : Bool
  deriving DecidableEq, Repr

/-- The whole program state: the engine object, the global window and GLFW's window. -/
structure State where
  engine : Engine
  window : Window
  glfw : GlfwWindow
  deriving DecidableEq, Repr

/-- The settings given to `vkb::InstanceBuilder` before `build()`. -/
structure InstanceRequest where
  app_name : String
  validation_layers : Bool
  default_debug_messenger : Bool
  api_major : Nat
  api_minor : Nat
  api_patch : Nat
  deriving DecidableEq, Repr

/-- The value of a successful `InstanceBuilder::build()`. -/
structure VkbInstance where
  instance_ : Handle
  debug_messenger : Handle
  deriving DecidableEq, Repr

/-- The settings given to `vkb::PhysicalDeviceSelector` before `select()`. -/
structure SelectRequest where
  instance_ : Handle
  minimum_major : Nat
  minimum_minor : Nat
  dynamicRendering : Bool
  synchronization2 : Bool
  bufferDeviceAddress : Bool
  descriptorIndexing : Bool
  surface : Handle
  deriving DecidableEq, Repr

/-- The settings given to `vkb::SwapchainBuilder` before `build()`. -/
structure SwapchainRequest where
  physical_device : Handle
  device : Handle
  surface : Handle
  desired_format : VkSurfaceFormatKHR
  desired_present_mode : Nat
  desired_width : Nat
  desired_height : Nat
  added_image_usage_flags : Nat
  deriving DecidableEq, Repr

/-- The value of a successful `SwapchainBuilder::build()`, with what its
    `get_images()` and `get_image_views()` will answer (`none`: an error result). -/
structure VkbSwapchain where
  swapchain : Handle
  extent : VkExtent2D
  images : Option (List Handle)
  image_views : Option (List Handle)
  deriving DecidableEq, Repr

/-- The answers of the outside world to the calls of `init`. -/
structure Env where
  glfwInit : Bool
  glfwCreateWindow : Handle
  instance_build : InstanceRequest → Option VkbInstance
  glfwCreateWindowSurface : Handle → Handle → Int × Handle
  select : SelectRequest → Option Handle
  device_build : Handle → Option Handle
  swapchain_build : SwapchainRequest → Option VkbSwapchain

/-- One call across the boundary of `engine.cpp`, with its arguments and, for the calls
    that create something, its answer.  The three member functions with an empty body
    (`init_commands`, `init_sync_structures`, `draw`) have a marker of their own, so that
    the place where they are called is visible in a trace. -/
inductive Call where
  | glfwSetErrorCallback
  | glfwInit (ret : Bool)
  | cout (text : String)
  | glfwWindowHint (hint value : Int)
  | glfwCreateWindow (width height : Int) (title : String) (ret : Handle)
  | glfwSetKeyCallback (window : Handle)
  | instance_build (req : InstanceRequest) (ret : Option VkbInstance)
  | glfwCreateWindowSurface (instance_ window : Handle) (err : Int) (surface : Handle)
  | select (req : SelectRequest) (ret : Option Handle)
  | device_build (physical_device : Handle) (ret : Option Handle)
  | swapchain_build (req : SwapchainRequest) (ret : Option Handle)
  | get_images (ret : Option (List Handle))
  | get_image_views (ret : Option (List Handle))
  | init_commands
  | init_sync_structures
  | draw
  | glfwPollEvents
  | vkDestroySwapchainKHR (device swapchain : Handle)
  | vkDestroyImageView (device view : Handle)
  | vkDestroySurfaceKHR (instance_ surface : Handle)
  | vkDestroyDevice (device : Handle)
  | destroy_debug_utils_messenger (instance_ messenger : Handle)
  | vkDestroyInstance (instance_ : Handle)
  | glfwDestroyWindow (window : Handle)
  | glfwTerminate
  deriving DecidableEq, Repr

/-- How a member function ended: it returned, it threw `std::runtime_error(what)`, or
    `value()` was called on a vk-bootstrap result that holds an error. -/
inductive Status where
  | ok
  | threw (what : String)
  | value_failed
  deriving DecidableEq, Repr

/-- The state reached, the calls made and the way the run ended. -/
structure Run where
  state : State
  trace : List Call
  status : Status
  deriving DecidableEq, Repr

/-- Sequencing of two statements: the second runs only when the first returned. -/
def Run.next (r : Run) (f : State → Run) : Run :=
  match r.status with
  | Status.ok => { state := (f r.state).state, trace := r.trace ++ (f r.state).trace,
                   status := (f r.state).status }
  | _ => r

/-! ## The functions of `engine.cpp` -/

/-- `glfwSetWindowShouldClose(window, value)`. -/
def glfwSetWindowShouldClose (w : GlfwWindow) (value : Int) : GlfwWindow :=
  { w with should_close := decide (value ≠ 0) }

/-- `keyboardCallback` (engine.cpp 13-16). -/
def keyboardCallback (w : GlfwWindow) (key _scancode action _mods : Int) : GlfwWindow :=
  if key = GLFW_KEY_ESCAPE ∧ action = GLFW_PRESS then
    glfwSetWindowShouldClose w GLFW_TRUE
  else w

/-- `Engine::destroy_swapchain` (engine.cpp 128-135): the swapchain handle, then the loop
    `for (int i = 0; i < swapchain_image_views.size(); ++i)` over the image views.  The
    counter `i` takes the values `0, ..., size - 1`; it stays inside `int` for any vector
    of fewer than `2^31` views. -/
def destroy_swapchain (s : State) : State × List Call :=
  (s, Call.vkDestroySwapchainKHR s.engine.device s.engine.swapchain ::
      (List.range s.engine.swapchain_image_views.length).map
        (fun i => Call.vkDestroyImageView s.engine.device
                    (s.engine.swapchain_image_views.getD i 0)))

/-- `Engine::terminate` (engine.cpp 149-163). -/
def terminate (s : State) : State × List Call :=
  if s.engine.is_init then
    let r := destroy_swapchain s
    let s1 := r.1
    (s1, r.2 ++
      [Call.vkDestroySurfaceKHR s1.engine.instance_ s1.engine.surface,
       Call.vkDestroyDevice s1.engine.device,
       Call.destroy_debug_utils_messenger s1.engine.instance_ s1.engine.debug_messenger,
       Call.vkDestroyInstance s1.engine.instance_,
       Call.glfwDestroyWindow s1.window.handle,
       Call.glfwTerminate])
  else (s, [])

/-- The instance builder settings of `init_vulkan` (engine.cpp 56-60). -/
def instance_request (s : State) : InstanceRequest :=
  { app_name := "Vulkan Engine", validation_layers := s.engine.r_validation_layers,
    default_debug_messenger := true, api_major := 1, api_minor := 3, api_patch := 0 }

/-- The selector settings of `init_vulkan` (engine.cpp 75-92). -/
def select_request (vkb_inst : VkbInstance) (surface : Handle) : SelectRequest :=
  { instance_ := vkb_inst.instance_, minimum_major := 1, minimum_minor := 3,
    dynamicRendering := true, synchronization2 := true,
    bufferDeviceAddress := true, descriptorIndexing := true, surface := surface }

/-- `Engine::init_vulkan` (engine.cpp 52-102). -/
def init_vulkan (env : Env) (s : State) : Run :=
  let req := instance_request s
  match env.instance_build req with
  | none => { state := s, trace := [Call.instance_build req none], status := Status.value_failed }
  | some vkb_inst =>
    let s1 := { s with engine := { s.engine with instance_ := vkb_inst.instance_,
                                                 debug_messenger := vkb_inst.debug_messenger } }
    let t1 := [Call.instance_build req (some vkb_inst)]
    let r := env.glfwCreateWindowSurface s1.engine.instance_ s1.window.handle
    let s2 := { s1 with engine := { s1.engine with surface := r.2 } }
    let t2 := t1 ++ [Call.glfwCreateWindowSurface s1.engine.instance_ s1.window.handle r.1 r.2]
    if r.1 ≠ 0 then
      let d := terminate s2
      { state := d.1, trace := t2 ++ d.2, status := Status.threw "failed to create a window surface" }
    else
      let sreq := select_request vkb_inst s2.engine.surface
      match env.select sreq with
      | none => { state := s2, trace := t2 ++ [Call.select sreq none], status := Status.value_failed }
      | some pd =>
        let t3 := t2 ++ [Call.select sreq (some pd)]
        match env.device_build pd with
        | none => { state := s2, trace := t3 ++ [Call.device_build pd none],
                    status := Status.value_failed }
        | some dev =>
          { state := { s2 with engine := { s2.engine with device := dev, physical_device := pd } },
            trace := t3 ++ [Call.device_build pd (some dev)], status := Status.ok }

/-- The swapchain builder settings of `create_swapchain` (engine.cpp 105-116). -/
def swapchain_request (s : State) (width height : Nat) : SwapchainRequest :=
  { physical_device := s.engine.physical_device, device := s.engine.device,
    surface := s.engine.surface,
    desired_format := { format := s.engine.swapchain_image_format,
                        colorSpace := VK_COLOR_SPACE_SRGB_NONLINEAR_KHR },
    desired_present_mode := VK_PRESENT_MODE_FIFO_KHR,
    desired_width := width, desired_height := height,
    added_image_usage_flags := VK_IMAGE_USAGE_TRANSFER_DST_BIT }

/-- `Engine::create_swapchain` (engine.cpp 104-126). -/
def create_swapchain (env : Env) (width height : Nat) (s : State) : Run :=
  let s1 := { s with engine := { s.engine with swapchain_image_format := VK_FORMAT_B8G8R8A8_UNORM } }
  let req := swapchain_request s1 width height
  match env.swapchain_build req with
  | none => { state := s1, trace := [Call.swapchain_build req none], status := Status.value_failed }
  | some sc =>
    let t1 := [Call.swapchain_build req (some sc.swapchain)]
    let s2 := { s1 with engine := { s1.engine with swapchain_extent := sc.extent,
                                                   swapchain := sc.swapchain } }
    match sc.images with
    | none => { state := s2, trace := t1 ++ [Call.get_images none], status := Status.value_failed }
    | some imgs =>
      let s3 := { s2 with engine := { s2.engine with swapchain_images := imgs } }
      let t2 := t1 ++ [Call.get_images (some imgs)]
      match sc.image_views with
      | none => { state := s3, trace := t2 ++ [Call.get_image_views none],
                  status := Status.value_failed }
      | some views =>
        { state := { s3 with engine := { s3.engine with swapchain_image_views := views } },
          trace := t2 ++ [Call.get_image_views (some views)], status := Status.ok }

/-- `Engine::init_swapchain` (engine.cpp 137-139). -/
def init_swapchain (env : Env) (s : State) : Run :=
  create_swapchain env s.window.size.width s.window.size.height s

/-- `Engine::init_commands` (engine.cpp 141-143): empty body. -/
def init_commands (s : State) : Run :=
  { state := s, trace := [Call.init_commands], status := Status.ok }

/-- `Engine::init_sync_structures` (engine.cpp 145-147): empty body. -/
def init_sync_structures (s : State) : Run :=
  { state := s, trace := [Call.init_sync_structures], status := Status.ok }

/-- The statements of `Engine::init` up to and including `glfwSetKeyCallback`
    (engine.cpp 19-41).  A window that GLFW has just created has its close-request flag
    down and no key callback. -/
def init_window (env : Env) (s : State) : Run :=
  let t0 := [Call.glfwSetErrorCallback, Call.glfwInit env.glfwInit]
  if !env.glfwInit then
    { state := s, trace := t0, status := Status.threw "failed to initialize glfw" }
  else
    let t1 := t0 ++ [Call.cout "glfw initialized successfully\n",
                     Call.glfwWindowHint GLFW_CLIENT_API GLFW_NO_API,
                     Call.glfwWindowHint GLFW_RESIZABLE GLFW_FALSE]
    let s1 := { s with window := { s.window with size := { width := 1500, height := 800 },
                                                 title := "vulkan" } }
    let h := env.glfwCreateWindow
    let t2 := t1 ++ [Call.glfwCreateWindow (Int.ofNat s1.window.size.width)
                       (Int.ofNat s1.window.size.height) s1.window.title h]
    let s2 := { s1 with window := { s1.window with handle := h } }
    if h = 0 then
      { state := s2, trace := t2 ++ [Call.glfwDestroyWindow h, Call.glfwTerminate],
        status := Status.threw "failed to create glfw window" }
    else
      { state := { s2 with glfw := { should_close := false, key_callback := true } },
        trace := t2 ++ [Call.cout "glfw window created successfully", Call.glfwSetKeyCallback h],
        status := Status.ok }

/-- The body of `Engine::init` before its last statement (engine.cpp 19-46). -/
def init_phases (env : Env) (s : State) : Run :=
  ((((init_window env s).next (init_vulkan env)).next (init_swapchain env)).next
    init_commands).next init_sync_structures

/-- `Engine::init` (engine.cpp 18-50): the phases, then `is_init = true`. -/
def init (env : Env) (s : State) : Run :=
  (init_phases env s).next
    (fun s1 => { state := { s1 with engine := { s1.engine with is_init := true } },
                 trace := [], status := Status.ok })

/-- `Engine::draw` (engine.cpp 165): empty body. -/
def draw (s : State) : State × List Call := (s, [Call.draw])

/-- What one `glfwPollEvents` may deliver: a key event, or the user asking the window
    to close (GLFW raises the close-request flag itself). -/
inductive Input where
  | key (key scancode action mods : Int)
  | close_request
  deriving DecidableEq, Repr

/-- Delivery of one input: key events go to the installed key callback. -/
def dispatch (w : GlfwWindow) : Input → GlfwWindow
  | Input.key key scancode action mods =>
      if w.key_callback then keyboardCallback w key scancode action mods else w
  | Input.close_request => { w with should_close := true }

/-- `glfwPollEvents()` when `pending` is the list of inputs waiting to be delivered. -/
def glfwPollEvents (pending : List Input) (s : State) : State × List Call :=
  ({ s with glfw := pending.foldl dispatch s.glfw }, [Call.glfwPollEvents])

/-- `Engine::run` (engine.cpp 167-172).  `polls i` is what the `i`-th `glfwPollEvents`
    of the program delivers; `fuel` bounds the number of loop checks, `none` means the
    loop was still running when the fuel ran out. -/
def run (polls : Nat → List Input) : Nat → Nat → State → Option (State × List Call)
  | 0, _, _ => none
  | fuel + 1, i, s =>
    if s.glfw.should_close then some (s, [])
    else
      let p := glfwPollEvents (polls i) s
      let d := draw p.1
      (run polls fuel (i + 1) d.1).map (fun r => (r.1, p.2 ++ d.2 ++ r.2))

/-! ## Reading a trace -/

/-- The resources of the data model. -/
inductive Resource where
  | window
  | instance_
  | debug_messenger
  | surface
  | physical_device
  | logical_device
  | swapchain
  deriving DecidableEq, Repr

/-- The resources a call brought into being (for the physical device: selected), read
    from its answer.  The instance builder makes the instance and, when it answers with a
    non-null messenger handle, the debug messenger. -/
def Call.creates : Call → List Resource
  | Call.glfwCreateWindow _ _ _ ret => if ret = 0 then [] else [Resource.window]
  | Call.instance_build _ (some r) =>
      if r.debug_messenger = 0 then [Resource.instance_]
      else [Resource.instance_, Resource.debug_messenger]
  | Call.glfwCreateWindowSurface _ _ err _ => if err = 0 then [Resource.surface] else []
  | Call.select _ (some _) => [Resource.physical_device]
  | Call.device_build _ (some _) => [Resource.logical_device]
  | Call.swapchain_build _ (some _) => [Resource.swapchain]
  | _ => []

/-- The resource a call destroys.  The image views belong to the swapchain bundle and
    `glfwTerminate` is the library shutdown: neither is a resource of its own.  The debug
    messenger is the one optional resource of the data model: as `Call.creates` counts it
    created when the builder answered with a non-null messenger handle, so
    `destroy_debug_utils_messenger` destroys it when it is given a non-null handle, and
    nothing when it is given the null handle. -/
def Call.destroys : Call → List Resource
  | Call.vkDestroySwapchainKHR _ _ => [Resource.swapchain]
  | Call.vkDestroySurfaceKHR _ _ => [Resource.surface]
  | Call.vkDestroyDevice _ => [Resource.logical_device]
  | Call.destroy_debug_utils_messenger _ messenger =>
      if messenger = 0 then [] else [Resource.debug_messenger]
  | Call.vkDestroyInstance _ => [Resource.instance_]
  | Call.glfwDestroyWindow _ => [Resource.window]
  | _ => []

/-- Whether a call is one of the destruction calls of `terminate` and
    `destroy_swapchain`. -/
def Call.is_destruction : Call → Bool
  | Call.vkDestroySwapchainKHR _ _ => true
  | Call.vkDestroyImageView _ _ => true
  | Call.vkDestroySurfaceKHR _ _ => true
  | Call.vkDestroyDevice _ => true
  | Call.destroy_debug_utils_messenger _ _ => true
  | Call.vkDestroyInstance _ => true
  | Call.glfwDestroyWindow _ => true
  | Call.glfwTerminate => true
  | _ => false

/-- The creation order recorded in a trace. -/
def creations (t : List Call) : List Resource := t.flatMap Call.creates

/-- The destruction order recorded in a trace. -/
def destructions (t : List Call) : List Resource := t.flatMap Call.destroys

/-- The phases of `init`. -/
inductive Phase where
  | window_creation
  | instance_creation
  | surface_creation
  | device_selection
  | logical_device_creation
  | swapchain_creation
  | init_commands
  | init_sync_structures
  deriving DecidableEq, Repr

/-- The phase a call opens, if any: each phase is entered by exactly one call. -/
def Call.phase : Call → Option Phase
  | Call.glfwCreateWindow _ _ _ _ => some Phase.window_creation
  | Call.instance_build _ _ => some Phase.instance_creation
  | Call.glfwCreateWindowSurface _ _ _ _ => some Phase.surface_creation
  | Call.select _ _ => some Phase.device_selection
  | Call.device_build _ _ => some Phase.logical_device_creation
  | Call.swapchain_build _ _ => some Phase.swapchain_creation
  | Call.init_commands => some Phase.init_commands
  | Call.init_sync_structures => some Phase.init_sync_structures
  | _ => none

/-- The phases entered in a trace, in order. -/
def phases (t : List Call) : List Phase := t.filterMap Call.phase

/-- The order of the phases of `init`. -/
def phase_order : List Phase :=
  [Phase.window_creation, Phase.instance_creation, Phase.surface_creation,
   Phase.device_selection, Phase.logical_device_creation, Phase.swapchain_creation,
   Phase.init_commands, Phase.init_sync_structures]

/-- The trace of `n` loop iterations of `run`: one `glfwPollEvents`, then one `draw`, each time. -/
def iterations (n : Nat) : List Call :=
  (List.replicate n [Call.glfwPollEvents, Call.draw]).flatten

/-- The phases entered by a run are the first `k` of the list `L`, and all of them when
    the run returned. -/
def Staged (r : Run) (L : List Phase) : Prop :=
  ∃ k, k ≤ L.length ∧ phases r.trace = L.take k ∧ (r.status = Status.ok → k = L.length)

/-- The state after `n` iterations of the loop body of `run` (`glfwPollEvents`, then
    `draw`), the first of them being the `i`-th poll of the program. -/
def after_polls (polls : Nat → List Input) : Nat → State → Nat → State
  | _, s, 0 => s
  | i, s, n + 1 => after_polls polls (i + 1) (draw (glfwPollEvents (polls i) s).1).1 n

/-! ## Sample inputs -/

/-- A state in which `init` has not run: the flag is down, every handle is null. -/
def blank_state : State :=
  { engine := { is_init := false, r_validation_layers := true, instance_ := 0,
                debug_messenger := 0, surface := 0, device := 0, physical_device := 0,
                swapchain := 0, swapchain_image_format := 0,
                swapchain_extent := { width := 0, height := 0 },
                swapchain_images := [], swapchain_image_views := [] },
    window := { handle := 0, size := { width := 0, height := 0 }, title := "" },
    glfw := { should_close := false, key_callback := false } }

/-- A state as a completed `init` leaves it, with two swapchain images. -/
def live_state : State :=
  { engine := { is_init := true, r_validation_layers := true, instance_ := 2,
                debug_messenger := 3, surface := 4, device := 6, physical_device := 5,
                swapchain := 7, swapchain_image_format := VK_FORMAT_B8G8R8A8_UNORM,
                swapchain_extent := { width := 1500, height := 800 },
                swapchain_images := [10, 11], swapchain_image_views := [20, 21] },
    window := { handle := 1, size := { width := 1500, height := 800 }, title := "vulkan" },
    glfw := { should_close := false, key_callback := true } }

/-- An outside world in which every call of `init` succeeds. -/
def good_env : Env :=
  { glfwInit := true,
    glfwCreateWindow := 1,
    instance_build := fun _ => some { instance_ := 2, debug_messenger := 3 },
    glfwCreateWindowSurface := fun _ _ => (0, 4),
    select := fun _ => some 5,
    device_build := fun _ => some 6,
    swapchain_build := fun req =>
      some { swapchain := 7, extent := { width := req.desired_width, height := req.desired_height },
             images := some [10, 11], image_views := some [20, 21] } }

/-- As `good_env`, but `glfwCreateWindowSurface` answers
    `VK_ERROR_INITIALIZATION_FAILED` (-3) and leaves the surface null. -/
def surface_fails_env : Env :=
  { good_env with glfwCreateWindowSurface := fun _ _ => (-3, 0) }

/-- What the polls deliver when the user holds the key A (65) and presses escape during
    the third poll. -/
def escape_at_third_poll : Nat → List Input
  | 2 => [Input.key 65 38 1 0, Input.key GLFW_KEY_ESCAPE 9 GLFW_PRESS 0]
  | _ => [Input.key 65 38 1 0]

/-! ## Auxiliary lemmas -/

theorem range_getD_map {β : Type} (f : Handle → β) (l : List Handle) :
    (List.range l.length).map (fun i => f (l.getD i 0)) = l.map f := by
  apply List.ext_getElem
  · simp
  · intro i h1 h2
    simp at h1
    simp [List.getD, h1]

theorem destroy_swapchain_eq (s : State) :
    destroy_swapchain s =
      (s, Call.vkDestroySwapchainKHR s.engine.device s.engine.swapchain ::
          s.engine.swapchain_image_views.map (Call.vkDestroyImageView s.engine.device)) := by
  unfold destroy_swapchain
  rw [range_getD_map]

theorem terminate_fst (s : State) : (terminate s).1 = s := by
  unfold terminate
  split <;> simp [destroy_swapchain]

/-! ## `terminate` and `destroy_swapchain` -/

/-- C4, as the code has it: `destroy_swapchain` first destroys the swapchain handle, then
    the image views `v[0], ..., v[n-1]` in index order, each exactly once, and changes no
    field. -/
theorem destroy_swapchain_handle_then_views (s : State) :
    (destroy_swapchain s).1 = s ∧
    (destroy_swapchain s).2 =
      [Call.vkDestroySwapchainKHR s.engine.device s.engine.swapchain] ++
        s.engine.swapchain_image_views.map (Call.vkDestroyImageView s.engine.device) := by
  rw [destroy_swapchain_eq]
  simp

/-- C4, as stated, fails: with the two image views 20 and 21 alive, the first call of
    `destroy_swapchain` is the destruction of the swapchain handle, and the trace is not
    "the views, then the handle". -/
theorem destroy_swapchain_views_not_first :
    (destroy_swapchain live_state).2 =
      [Call.vkDestroySwapchainKHR 6 7, Call.vkDestroyImageView 6 20,
       Call.vkDestroyImageView 6 21] ∧
    (destroy_swapchain live_state).2 ≠
      live_state.engine.swapchain_image_views.map
          (Call.vkDestroyImageView live_state.engine.device) ++
        [Call.vkDestroySwapchainKHR live_state.engine.device live_state.engine.swapchain] := by
  decide

/-- C3: with `is_init` true, the calls of `terminate` are exactly those of
    `destroy_swapchain`, then the surface, the logical device, the debug messenger, the
    instance, the window and `glfwTerminate`. -/
theorem terminate_sequence (s : State) (h : s.engine.is_init = true) :
    (terminate s).2 =
      (destroy_swapchain s).2 ++
        [Call.vkDestroySurfaceKHR s.engine.instance_ s.engine.surface,
         Call.vkDestroyDevice s.engine.device,
         Call.destroy_debug_utils_messenger s.engine.instance_ s.engine.debug_messenger,
         Call.vkDestroyInstance s.engine.instance_,
         Call.glfwDestroyWindow s.window.handle,
         Call.glfwTerminate] := by
  simp [terminate, h, destroy_swapchain]

/-- C3 at `live_state`. -/
theorem terminate_sequence_witness :
    (terminate live_state).2 =
      (destroy_swapchain live_state).2 ++
        [Call.vkDestroySurfaceKHR 2 4, Call.vkDestroyDevice 6,
         Call.destroy_debug_utils_messenger 2 3, Call.vkDestroyInstance 2,
         Call.glfwDestroyWindow 1, Call.glfwTerminate] :=
  terminate_sequence live_state rfl

/-- C9: `terminate` writes no field, `is_init` included: with `is_init` true it is still
    true afterwards, a second `terminate` makes the same calls as the first, and they are
    the full destruction sequence. -/
theorem terminate_keeps_flag (s : State) (h : s.engine.is_init = true) :
    (terminate s).1 = s ∧
    (terminate s).1.engine.is_init = true ∧
    (terminate (terminate s).1).2 = (terminate s).2 ∧
    (terminate s).2 =
      [Call.vkDestroySwapchainKHR s.engine.device s.engine.swapchain] ++
        s.engine.swapchain_image_views.map (Call.vkDestroyImageView s.engine.device) ++
        [Call.vkDestroySurfaceKHR s.engine.instance_ s.engine.surface,
         Call.vkDestroyDevice s.engine.device,
         Call.destroy_debug_utils_messenger s.engine.instance_ s.engine.debug_messenger,
         Call.vkDestroyInstance s.engine.instance_,
         Call.glfwDestroyWindow s.window.handle,
         Call.glfwTerminate] := by
  refine ⟨terminate_fst s, ?_, ?_, ?_⟩
  · rw [terminate_fst]; exact h
  · rw [terminate_fst]
  · simp [terminate, h, destroy_swapchain_eq]

/-- C9 at `live_state`: both calls make the same nine destruction calls. -/
theorem terminate_keeps_flag_witness :
    (terminate live_state).1 = live_state ∧
    (terminate live_state).1.engine.is_init = true ∧
    (terminate (terminate live_state).1).2 = (terminate live_state).2 ∧
    (terminate live_state).2 =
      [Call.vkDestroySwapchainKHR 6 7] ++ [Call.vkDestroyImageView 6 20,
        Call.vkDestroyImageView 6 21] ++
        [Call.vkDestroySurfaceKHR 2 4, Call.vkDestroyDevice 6,
         Call.destroy_debug_utils_messenger 2 3, Call.vkDestroyInstance 2,
         Call.glfwDestroyWindow 1, Call.glfwTerminate] :=
  terminate_keeps_flag live_state rfl

/-! ## `keyboardCallback` -/

/-- C10: `keyboardCallback` raises the close-request flag exactly on an escape press;
    on any other key or action it returns GLFW's window as it was; it never lowers the
    flag and touches nothing else. -/
theorem keyboardCallback_escape_only (w : GlfwWindow) (key scancode action mods : Int) :
    ((key = GLFW_KEY_ESCAPE ∧ action = GLFW_PRESS) →
        keyboardCallback w key scancode action mods = { w with should_close := true }) ∧
    (¬ (key = GLFW_KEY_ESCAPE ∧ action = GLFW_PRESS) →
        keyboardCallback w key scancode action mods = w) ∧
    (keyboardCallback w key scancode action mods ≠ w ↔
        (key = GLFW_KEY_ESCAPE ∧ action = GLFW_PRESS ∧ w.should_close = false)) ∧
    (w.should_close = true →
        (keyboardCallback w key scancode action mods).should_close = true) ∧
    (keyboardCallback w key scancode action mods).key_callback = w.key_callback := by
  unfold keyboardCallback glfwSetWindowShouldClose
  by_cases hk : key = GLFW_KEY_ESCAPE ∧ action = GLFW_PRESS
  · rw [if_pos hk]
    obtain ⟨sc, kc⟩ := w
    cases sc <;> simp [hk, GLFW_TRUE]
  · rw [if_neg hk]
    refine ⟨fun h => absurd h hk, fun _ => rfl, ?_, fun h => h, rfl⟩
    constructor
    · intro h; exact absurd rfl h
    · intro h; exact absurd ⟨h.1, h.2.1⟩ hk

theorem next_ok (r : Run) (f : State → Run) (h : r.status = Status.ok) :
    r.next f = { state := (f r.state).state, trace := r.trace ++ (f r.state).trace,
                 status := (f r.state).status } := by
  unfold Run.next
  rw [h]

theorem next_fail (r : Run) (f : State → Run) (h : r.status ≠ Status.ok) :
    r.next f = r := by
  unfold Run.next
  split
  · contradiction
  · rfl

theorem phases_append (a b : List Call) : phases (a ++ b) = phases a ++ phases b := by
  simp [phases]

theorem phases_terminate (s : State) : phases (terminate s).2 = [] := by
  unfold terminate
  split
  · simp [destroy_swapchain_eq, phases, Call.phase, List.filterMap_map, List.filterMap_eq_nil_iff]
  · rfl

/-! ### The flag is not written by any phase -/

theorem init_window_is_init (env : Env) (s : State) :
    (init_window env s).state.engine.is_init = s.engine.is_init := by
  simp only [init_window]
  split_ifs <;> rfl

theorem init_vulkan_is_init (env : Env) (s : State) :
    (init_vulkan env s).state.engine.is_init = s.engine.is_init := by
  simp only [init_vulkan]
  split
  · rfl
  · split_ifs
    · simp [terminate_fst]
    · split
      · rfl
      · split <;> rfl

theorem create_swapchain_is_init (env : Env) (w h : Nat) (s : State) :
    (create_swapchain env w h s).state.engine.is_init = s.engine.is_init := by
  simp only [create_swapchain]
  split
  · rfl
  · split
    · rfl
    · split <;> rfl

theorem init_swapchain_is_init (env : Env) (s : State) :
    (init_swapchain env s).state.engine.is_init = s.engine.is_init :=
  create_swapchain_is_init env _ _ s

theorem next_is_init (r : Run) (f : State → Run)
    (hf : ∀ s, (f s).state.engine.is_init = s.engine.is_init) :
    (r.next f).state.engine.is_init = r.state.engine.is_init := by
  by_cases h : r.status = Status.ok
  · rw [next_ok r f h]; exact hf _
  · rw [next_fail r f h]

theorem init_phases_is_init (env : Env) (s : State) :
    (init_phases env s).state.engine.is_init = s.engine.is_init := by
  unfold init_phases
  rw [next_is_init _ _ (fun _ => rfl), next_is_init _ _ (fun _ => rfl),
    next_is_init _ _ (init_swapchain_is_init env),
    next_is_init _ _ (init_vulkan_is_init env), init_window_is_init]

/-! ### The phases entered by each part of `init` -/

theorem staged_next (r : Run) (f : State → Run) (L1 L2 : List Phase)
    (h1 : Staged r L1) (h2 : ∀ s, Staged (f s) L2) : Staged (r.next f) (L1 ++ L2) := by
  obtain ⟨k1, hk1, hp1, ho1⟩ := h1
  by_cases h : r.status = Status.ok
  · obtain ⟨k2, hk2, hp2, ho2⟩ := h2 r.state
    have e1 := ho1 h
    subst e1
    rw [next_ok r f h]
    refine ⟨L1.length + k2, by simp [hk2], ?_, ?_⟩
    · simp only [phases_append, hp1, hp2]
      simp [List.take_append]
    · intro h3
      simp [ho2 h3]
  · rw [next_fail r f h]
    refine ⟨k1, by simp; omega, ?_, fun h3 => absurd h3 h⟩
    rw [hp1, List.take_append_of_le_length hk1]

theorem init_window_staged (env : Env) (s : State) :
    Staged (init_window env s) [Phase.window_creation] := by
  simp only [init_window]
  split_ifs
  · exact ⟨0, by simp, rfl, by simp⟩
  · exact ⟨1, by simp, rfl, by simp⟩
  · exact ⟨1, by simp, rfl, by simp⟩

theorem init_vulkan_staged (env : Env) (s : State) :
    Staged (init_vulkan env s)
      [Phase.instance_creation, Phase.surface_creation, Phase.device_selection,
       Phase.logical_device_creation] := by
  simp only [init_vulkan]
  split
  · exact ⟨1, by simp, rfl, by simp⟩
  · split_ifs
    · refine ⟨2, by simp, ?_, by simp⟩
      simp only [phases_append, phases_terminate]
      rfl
    · split
      · exact ⟨3, by simp, rfl, by simp⟩
      · split
        · exact ⟨4, by simp, rfl, by simp⟩
        · exact ⟨4, by simp, rfl, by simp⟩

theorem init_swapchain_staged (env : Env) (s : State) :
    Staged (init_swapchain env s) [Phase.swapchain_creation] := by
  simp only [init_swapchain, create_swapchain]
  split
  · exact ⟨1, by simp, rfl, by simp⟩
  · split
    · exact ⟨1, by simp, rfl, by simp⟩
    · split
      · exact ⟨1, by simp, rfl, by simp⟩
      · exact ⟨1, by simp, rfl, by simp⟩

theorem init_commands_staged (s : State) : Staged (init_commands s) [Phase.init_commands] :=
  ⟨1, by simp, rfl, by simp⟩

theorem init_sync_structures_staged (s : State) :
    Staged (init_sync_structures s) [Phase.init_sync_structures] :=
  ⟨1, by simp, rfl, by simp⟩

theorem init_front_staged (env : Env) (s : State) :
    Staged ((((init_window env s).next (init_vulkan env)).next (init_swapchain env)).next
        init_commands)
      [Phase.window_creation, Phase.instance_creation, Phase.surface_creation,
       Phase.device_selection, Phase.logical_device_creation, Phase.swapchain_creation,
       Phase.init_commands] :=
  staged_next _ _ _ _
    (staged_next _ _ _ _
      (staged_next _ _ _ _ (init_window_staged env s) (init_vulkan_staged env))
      (init_swapchain_staged env))
    init_commands_staged

theorem init_phases_staged (env : Env) (s : State) :
    Staged (init_phases env s) phase_order :=
  staged_next _ _ _ _ (init_front_staged env s) init_sync_structures_staged

theorem init_phases_ok_of_order (env : Env) (s : State)
    (h : phases (init_phases env s).trace = phase_order) :
    (init_phases env s).status = Status.ok := by
  unfold init_phases at h ⊢
  by_cases h4 : ((((init_window env s).next (init_vulkan env)).next (init_swapchain env)).next
        init_commands).status = Status.ok
  · rw [next_ok _ _ h4]
    rfl
  · rw [next_fail _ _ h4] at h
    obtain ⟨k, _, hp, _⟩ := init_front_staged env s
    rw [hp] at h
    have := congrArg List.length h
    simp [phase_order] at this
    omega

theorem init_of_phases_ok (env : Env) (s : State) (h : (init_phases env s).status = Status.ok) :
    init env s =
      { state := { (init_phases env s).state with
                   engine := { (init_phases env s).state.engine with is_init := true } },
        trace := (init_phases env s).trace, status := Status.ok } := by
  unfold init
  rw [next_ok _ _ h]
  simp

theorem init_of_phases_fail (env : Env) (s : State)
    (h : (init_phases env s).status ≠ Status.ok) : init env s = init_phases env s := by
  unfold init
  rw [next_fail _ _ h]

theorem init_status (env : Env) (s : State) :
    (init env s).status = (init_phases env s).status := by
  by_cases h : (init_phases env s).status = Status.ok
  · rw [init_of_phases_ok env s h, h]
  · rw [init_of_phases_fail env s h]

theorem init_trace (env : Env) (s : State) :
    (init env s).trace = (init_phases env s).trace := by
  by_cases h : (init_phases env s).status = Status.ok
  · rw [init_of_phases_ok env s h]
  · rw [init_of_phases_fail env s h]

/-! ## `init` -/

/-- C1: with `is_init` false, `terminate` makes no call at all and returns the state it
    was given; this is so in particular after an `init` that started with the flag down
    and did not return normally. -/
theorem terminate_without_init (s : State) (h : s.engine.is_init = false) :
    terminate s = (s, []) ∧
    ∀ env, (init env s).status ≠ Status.ok →
      terminate (init env s).state = ((init env s).state, []) := by
  constructor
  · simp [terminate, h]
  · intro env hne
    rw [init_status] at hne
    have hflag := init_phases_is_init env s
    rw [init_of_phases_fail env s hne]
    simp [terminate, hflag, h]

/-- C1 at the state in which `init` has not run. -/
theorem terminate_without_init_witness :
    terminate blank_state = (blank_state, []) ∧
    ∀ env, (init env blank_state).status ≠ Status.ok →
      terminate (init env blank_state).state = ((init env blank_state).state, []) :=
  terminate_without_init blank_state rfl


/-! ### `init`, case by case -/

theorem init_case_all_succeed (env : Env) (s : State) (vi : VkbInstance)
    (surf pd dev : Handle) (sc : VkbSwapchain) (imgs views : List Handle)
    (h0 : env.glfwInit = true) (h1 : env.glfwCreateWindow ≠ 0)
    (h2 : env.instance_build
        { app_name := "Vulkan Engine", validation_layers := s.engine.r_validation_layers,
          default_debug_messenger := true, api_major := 1, api_minor := 3,
          api_patch := 0 } = some vi)
    (h3 : env.glfwCreateWindowSurface vi.instance_ env.glfwCreateWindow = (0, surf))
    (h4 : env.select
        { instance_ := vi.instance_, minimum_major := 1, minimum_minor := 3,
          dynamicRendering := true, synchronization2 := true,
          bufferDeviceAddress := true, descriptorIndexing := true,
          surface := surf } = some pd)
    (h5 : env.device_build pd = some dev)
    (h6 : env.swapchain_build
        { physical_device := pd, device := dev, surface := surf,
          desired_format := { format := VK_FORMAT_B8G8R8A8_UNORM,
                              colorSpace := VK_COLOR_SPACE_SRGB_NONLINEAR_KHR },
          desired_present_mode := VK_PRESENT_MODE_FIFO_KHR,
          desired_width := 1500, desired_height := 800,
          added_image_usage_flags := VK_IMAGE_USAGE_TRANSFER_DST_BIT } = some sc)
    (h7 : sc.images = some imgs) (h8 : sc.image_views = some views) :
    init env s =
      { state :=
          { engine :=
              { is_init := true, r_validation_layers := s.engine.r_validation_layers,
                instance_ := vi.instance_, debug_messenger := vi.debug_messenger,
                surface := surf, device := dev, physical_device := pd,
                swapchain := sc.swapchain,
                swapchain_image_format := VK_FORMAT_B8G8R8A8_UNORM,
                swapchain_extent := sc.extent, swapchain_images := imgs,
                swapchain_image_views := views },
            window := { handle := env.glfwCreateWindow,
                        size := { width := 1500, height := 800 }, title := "vulkan" },
            glfw := { should_close := false, key_callback := true } },
        trace :=
          [Call.glfwSetErrorCallback, Call.glfwInit true,
           Call.cout "glfw initialized successfully\n",
           Call.glfwWindowHint GLFW_CLIENT_API GLFW_NO_API,
           Call.glfwWindowHint GLFW_RESIZABLE GLFW_FALSE,
           Call.glfwCreateWindow 1500 800 "vulkan" env.glfwCreateWindow,
           Call.cout "glfw window created successfully",
           Call.glfwSetKeyCallback env.glfwCreateWindow,
           Call.instance_build
             { app_name := "Vulkan Engine",
               validation_layers := s.engine.r_validation_layers,
               default_debug_messenger := true, api_major := 1, api_minor := 3,
               api_patch := 0 } (some vi),
           Call.glfwCreateWindowSurface vi.instance_ env.glfwCreateWindow 0 surf,
           Call.select
             { instance_ := vi.instance_, minimum_major := 1, minimum_minor := 3,
               dynamicRendering := true, synchronization2 := true,
               bufferDeviceAddress := true, descriptorIndexing := true,
               surface := surf } (some pd),
           Call.device_build pd (some dev),
           Call.swapchain_build
             { physical_device := pd, device := dev, surface := surf,
               desired_format := { format := VK_FORMAT_B8G8R8A8_UNORM,
                                   colorSpace := VK_COLOR_SPACE_SRGB_NONLINEAR_KHR },
               desired_present_mode := VK_PRESENT_MODE_FIFO_KHR,
               desired_width := 1500, desired_height := 800,
               added_image_usage_flags := VK_IMAGE_USAGE_TRANSFER_DST_BIT }
             (some sc.swapchain),
           Call.get_images (some imgs), Call.get_image_views (some views),
           Call.init_commands, Call.init_sync_structures],
        status := Status.ok } := by
  simp [init, init_phases, init_window, init_vulkan, init_swapchain, create_swapchain,
    init_commands, init_sync_structures, Run.next, instance_request, select_request,
    swapchain_request, h0, h1, h2, h3, h4, h5, h6, h7, h8]

theorem init_case_glfw_init_fails (env : Env) (s : State) 
    (h0 : env.glfwInit = false) :
    phases (init env s).trace = phase_order.take 0 ∧
    (init env s).status = Status.threw "failed to initialize glfw" := by
  simp [init, init_phases, init_window, init_vulkan, init_swapchain, create_swapchain,
    init_commands, init_sync_structures, Run.next, instance_request, select_request,
    swapchain_request, terminate, phases, Call.phase, phase_order, h0]

theorem init_case_window_fails (env : Env) (s : State) 
    (h0 : env.glfwInit = true)
    (h1 : env.glfwCreateWindow = 0) :
    phases (init env s).trace = phase_order.take 1 ∧
    (init env s).status = Status.threw "failed to create glfw window" := by
  simp [init, init_phases, init_window, init_vulkan, init_swapchain, create_swapchain,
    init_commands, init_sync_structures, Run.next, instance_request, select_request,
    swapchain_request, terminate, phases, Call.phase, phase_order, h0, h1]

theorem init_case_instance_fails (env : Env) (s : State) 
    (h0 : env.glfwInit = true)
    (h1 : env.glfwCreateWindow ≠ 0)
    (h2 : env.instance_build
        { app_name := "Vulkan Engine", validation_layers := s.engine.r_validation_layers,
          default_debug_messenger := true, api_major := 1, api_minor := 3,
          api_patch := 0 } = none) :
    phases (init env s).trace = phase_order.take 2 ∧
    (init env s).status = Status.value_failed := by
  simp [init, init_phases, init_window, init_vulkan, init_swapchain, create_swapchain,
    init_commands, init_sync_structures, Run.next, instance_request, select_request,
    swapchain_request, terminate, phases, Call.phase, phase_order, h0, h1, h2]

theorem init_case_surface_fails (env : Env) (s : State) (vi : VkbInstance)
    (hflag : s.engine.is_init = false)
    (h0 : env.glfwInit = true)
    (h1 : env.glfwCreateWindow ≠ 0)
    (h2 : env.instance_build
        { app_name := "Vulkan Engine", validation_layers := s.engine.r_validation_layers,
          default_debug_messenger := true, api_major := 1, api_minor := 3,
          api_patch := 0 } = some vi)
    (h3 : (env.glfwCreateWindowSurface vi.instance_ env.glfwCreateWindow).1 ≠ 0) :
    phases (init env s).trace = phase_order.take 3 ∧
    (init env s).status = Status.threw "failed to create a window surface" := by
  simp [init, init_phases, init_window, init_vulkan, init_swapchain, create_swapchain,
    init_commands, init_sync_structures, Run.next, instance_request, select_request,
    swapchain_request, terminate, phases, Call.phase, phase_order, hflag, h0, h1, h2, h3]

theorem init_case_select_fails (env : Env) (s : State) (vi : VkbInstance) (surf : Handle)
    (h0 : env.glfwInit = true)
    (h1 : env.glfwCreateWindow ≠ 0)
    (h2 : env.instance_build
        { app_name := "Vulkan Engine", validation_layers := s.engine.r_validation_layers,
          default_debug_messenger := true, api_major := 1, api_minor := 3,
          api_patch := 0 } = some vi)
    (h3 : env.glfwCreateWindowSurface vi.instance_ env.glfwCreateWindow = (0, surf))
    (h4 : env.select
        { instance_ := vi.instance_, minimum_major := 1, minimum_minor := 3,
          dynamicRendering := true, synchronization2 := true,
          bufferDeviceAddress := true, descriptorIndexing := true,
          surface := surf } = none) :
    phases (init env s).trace = phase_order.take 4 ∧
    (init env s).status = Status.value_failed := by
  simp [init, init_phases, init_window, init_vulkan, init_swapchain, create_swapchain,
    init_commands, init_sync_structures, Run.next, instance_request, select_request,
    swapchain_request, terminate, phases, Call.phase, phase_order, h0, h1, h2, h3, h4]

theorem init_case_device_fails (env : Env) (s : State) (vi : VkbInstance) (surf pd : Handle)
    (h0 : env.glfwInit = true)
    (h1 : env.glfwCreateWindow ≠ 0)
    (h2 : env.instance_build
        { app_name := "Vulkan Engine", validation_layers := s.engine.r_validation_layers,
          default_debug_messenger := true, api_major := 1, api_minor := 3,
          api_patch := 0 } = some vi)
    (h3 : env.glfwCreateWindowSurface vi.instance_ env.glfwCreateWindow = (0, surf))
    (h4 : env.select
        { instance_ := vi.instance_, minimum_major := 1, minimum_minor := 3,
          dynamicRendering := true, synchronization2 := true,
          bufferDeviceAddress := true, descriptorIndexing := true,
          surface := surf } = some pd)
    (h5 : env.device_build pd = none) :
    phases (init env s).trace = phase_order.take 5 ∧
    (init env s).status = Status.value_failed := by
  simp [init, init_phases, init_window, init_vulkan, init_swapchain, create_swapchain,
    init_commands, init_sync_structures, Run.next, instance_request, select_request,
    swapchain_request, terminate, phases, Call.phase, phase_order, h0, h1, h2, h3, h4, h5]

theorem init_case_swapchain_fails (env : Env) (s : State) (vi : VkbInstance) (surf pd dev : Handle)
    (h0 : env.glfwInit = true)
    (h1 : env.glfwCreateWindow ≠ 0)
    (h2 : env.instance_build
        { app_name := "Vulkan Engine", validation_layers := s.engine.r_validation_layers,
          default_debug_messenger := true, api_major := 1, api_minor := 3,
          api_patch := 0 } = some vi)
    (h3 : env.glfwCreateWindowSurface vi.instance_ env.glfwCreateWindow = (0, surf))
    (h4 : env.select
        { instance_ := vi.instance_, minimum_major := 1, minimum_minor := 3,
          dynamicRendering := true, synchronization2 := true,
          bufferDeviceAddress := true, descriptorIndexing := true,
          surface := surf } = some pd)
    (h5 : env.device_build pd = some dev)
    (h6 : env.swapchain_build
        { physical_device := pd, device := dev, surface := surf,
          desired_format := { format := VK_FORMAT_B8G8R8A8_UNORM,
                              colorSpace := VK_COLOR_SPACE_SRGB_NONLINEAR_KHR },
          desired_present_mode := VK_PRESENT_MODE_FIFO_KHR,
          desired_width := 1500, desired_height := 800,
          added_image_usage_flags := VK_IMAGE_USAGE_TRANSFER_DST_BIT } = none) :
    phases (init env s).trace = phase_order.take 6 ∧
    (init env s).status = Status.value_failed := by
  simp [init, init_phases, init_window, init_vulkan, init_swapchain, create_swapchain,
    init_commands, init_sync_structures, Run.next, instance_request, select_request,
    swapchain_request, terminate, phases, Call.phase, phase_order, h0, h1, h2, h3, h4, h5, h6]

theorem init_case_images_fail (env : Env) (s : State) (vi : VkbInstance) (surf pd dev : Handle) (sc : VkbSwapchain)
    (h0 : env.glfwInit = true)
    (h1 : env.glfwCreateWindow ≠ 0)
    (h2 : env.instance_build
        { app_name := "Vulkan Engine", validation_layers := s.engine.r_validation_layers,
          default_debug_messenger := true, api_major := 1, api_minor := 3,
          api_patch := 0 } = some vi)
    (h3 : env.glfwCreateWindowSurface vi.instance_ env.glfwCreateWindow = (0, surf))
    (h4 : env.select
        { instance_ := vi.instance_, minimum_major := 1, minimum_minor := 3,
          dynamicRendering := true, synchronization2 := true,
          bufferDeviceAddress := true, descriptorIndexing := true,
          surface := surf } = some pd)
    (h5 : env.device_build pd = some dev)
    (h6 : env.swapchain_build
        { physical_device := pd, device := dev, surface := surf,
          desired_format := { format := VK_FORMAT_B8G8R8A8_UNORM,
                              colorSpace := VK_COLOR_SPACE_SRGB_NONLINEAR_KHR },
          desired_present_mode := VK_PRESENT_MODE_FIFO_KHR,
          desired_width := 1500, desired_height := 800,
          added_image_usage_flags := VK_IMAGE_USAGE_TRANSFER_DST_BIT } = some sc)
    (h7 : sc.images = none ∨ sc.image_views = none) :
    phases (init env s).trace = phase_order.take 6 ∧
    (init env s).status = Status.value_failed := by
  rcases h7 with h7 | h7
  · rcases hv : sc.image_views with _ | views <;>
    simp [init, init_phases, init_window, init_vulkan, init_swapchain, create_swapchain,
    init_commands, init_sync_structures, Run.next, instance_request, select_request,
    swapchain_request, terminate, phases, Call.phase, phase_order, h0, h1, h2, h3, h4, h5, h6, h7, hv]
  · rcases hi : sc.images with _ | imgs <;>
    simp [init, init_phases, init_window, init_vulkan, init_swapchain, create_swapchain,
    init_commands, init_sync_structures, Run.next, instance_request, select_request,
    swapchain_request, terminate, phases, Call.phase, phase_order, h0, h1, h2, h3, h4, h5, h6, h7, hi]

/-- C6: `init` runs window creation, instance creation, surface creation, device
    selection, logical device creation, swapchain creation, `init_commands`,
    `init_sync_structures`, in that order, and sets `is_init` after the last of them only.
    Starting with the flag down: (1) the phases entered by any run are the first `k` of
    that list; (2) the run returns exactly when all eight were entered; (3) the flag is up
    afterwards exactly when the run returned; (4) it is still down after the last phase,
    before the last statement; (5) that statement is all a returning run does after the
    phases; (6) when every outside call succeeds `init` returns, having made exactly the
    seventeen calls listed, the eight phases among them in order, and the flag is up;
    (7)-(14) when a call fails, the phases before it and its own have been entered, no
    later one, and `init` ends by the throw or failed `value()` of that step. -/
theorem init_order_and_flag (env : Env) (s : State) (h : s.engine.is_init = false) :
    (∃ k, phases (init env s).trace = phase_order.take k) ∧
    ((init env s).status = Status.ok ↔ phases (init env s).trace = phase_order) ∧
    ((init env s).state.engine.is_init = true ↔ (init env s).status = Status.ok) ∧
    (init_phases env s).state.engine.is_init = false ∧
    ((init env s).status = Status.ok →
      (init env s).trace = (init_phases env s).trace ∧
      (init env s).state =
        { (init_phases env s).state with
          engine := { (init_phases env s).state.engine with is_init := true } }) ∧
    (∀ (vi : VkbInstance) (surf pd dev : Handle) (sc : VkbSwapchain)
        (imgs views : List Handle),
      env.glfwInit = true →
      env.glfwCreateWindow ≠ 0 →
      env.instance_build
          { app_name := "Vulkan Engine", validation_layers := s.engine.r_validation_layers,
            default_debug_messenger := true, api_major := 1, api_minor := 3,
            api_patch := 0 } = some vi →
      env.glfwCreateWindowSurface vi.instance_ env.glfwCreateWindow = (0, surf) →
      env.select
          { instance_ := vi.instance_, minimum_major := 1, minimum_minor := 3,
            dynamicRendering := true, synchronization2 := true,
            bufferDeviceAddress := true, descriptorIndexing := true,
            surface := surf } = some pd →
      env.device_build pd = some dev →
      env.swapchain_build
          { physical_device := pd, device := dev, surface := surf,
            desired_format := { format := VK_FORMAT_B8G8R8A8_UNORM,
                                colorSpace := VK_COLOR_SPACE_SRGB_NONLINEAR_KHR },
            desired_present_mode := VK_PRESENT_MODE_FIFO_KHR,
            desired_width := 1500, desired_height := 800,
            added_image_usage_flags := VK_IMAGE_USAGE_TRANSFER_DST_BIT } = some sc →
      sc.images = some imgs →
      sc.image_views = some views →
      init env s =
        { state :=
            { engine :=
                { is_init := true, r_validation_layers := s.engine.r_validation_layers,
                  instance_ := vi.instance_, debug_messenger := vi.debug_messenger,
                  surface := surf, device := dev, physical_device := pd,
                  swapchain := sc.swapchain,
                  swapchain_image_format := VK_FORMAT_B8G8R8A8_UNORM,
                  swapchain_extent := sc.extent, swapchain_images := imgs,
                  swapchain_image_views := views },
              window := { handle := env.glfwCreateWindow,
                          size := { width := 1500, height := 800 }, title := "vulkan" },
              glfw := { should_close := false, key_callback := true } },
          trace :=
            [Call.glfwSetErrorCallback, Call.glfwInit true,
             Call.cout "glfw initialized successfully\n",
             Call.glfwWindowHint GLFW_CLIENT_API GLFW_NO_API,
             Call.glfwWindowHint GLFW_RESIZABLE GLFW_FALSE,
             Call.glfwCreateWindow 1500 800 "vulkan" env.glfwCreateWindow,
             Call.cout "glfw window created successfully",
             Call.glfwSetKeyCallback env.glfwCreateWindow,
             Call.instance_build
               { app_name := "Vulkan Engine",
                 validation_layers := s.engine.r_validation_layers,
                 default_debug_messenger := true, api_major := 1, api_minor := 3,
                 api_patch := 0 } (some vi),
             Call.glfwCreateWindowSurface vi.instance_ env.glfwCreateWindow 0 surf,
             Call.select
               { instance_ := vi.instance_, minimum_major := 1, minimum_minor := 3,
                 dynamicRendering := true, synchronization2 := true,
                 bufferDeviceAddress := true, descriptorIndexing := true,
                 surface := surf } (some pd),
             Call.device_build pd (some dev),
             Call.swapchain_build
               { physical_device := pd, device := dev, surface := surf,
                 desired_format := { format := VK_FORMAT_B8G8R8A8_UNORM,
                                     colorSpace := VK_COLOR_SPACE_SRGB_NONLINEAR_KHR },
                 desired_present_mode := VK_PRESENT_MODE_FIFO_KHR,
                 desired_width := 1500, desired_height := 800,
                 added_image_usage_flags := VK_IMAGE_USAGE_TRANSFER_DST_BIT }
               (some sc.swapchain),
             Call.get_images (some imgs), Call.get_image_views (some views),
             Call.init_commands, Call.init_sync_structures],
          status := Status.ok }) ∧
    (env.glfwInit = false →
      phases (init env s).trace = phase_order.take 0 ∧
      (init env s).status = Status.threw "failed to initialize glfw") ∧
    (env.glfwInit = true →
      env.glfwCreateWindow = 0 →
      phases (init env s).trace = phase_order.take 1 ∧
      (init env s).status = Status.threw "failed to create glfw window") ∧
    (env.glfwInit = true →
      env.glfwCreateWindow ≠ 0 →
      env.instance_build
          { app_name := "Vulkan Engine", validation_layers := s.engine.r_validation_layers,
            default_debug_messenger := true, api_major := 1, api_minor := 3,
            api_patch := 0 } = none →
      phases (init env s).trace = phase_order.take 2 ∧
      (init env s).status = Status.value_failed) ∧
    (∀ (vi : VkbInstance),
      env.glfwInit = true →
      env.glfwCreateWindow ≠ 0 →
      env.instance_build
          { app_name := "Vulkan Engine", validation_layers := s.engine.r_validation_layers,
            default_debug_messenger := true, api_major := 1, api_minor := 3,
            api_patch := 0 } = some vi →
      (env.glfwCreateWindowSurface vi.instance_ env.glfwCreateWindow).1 ≠ 0 →
      phases (init env s).trace = phase_order.take 3 ∧
      (init env s).status = Status.threw "failed to create a window surface") ∧
    (∀ (vi : VkbInstance) (surf : Handle),
      env.glfwInit = true →
      env.glfwCreateWindow ≠ 0 →
      env.instance_build
          { app_name := "Vulkan Engine", validation_layers := s.engine.r_validation_layers,
            default_debug_messenger := true, api_major := 1, api_minor := 3,
            api_patch := 0 } = some vi →
      env.glfwCreateWindowSurface vi.instance_ env.glfwCreateWindow = (0, surf) →
      env.select
          { instance_ := vi.instance_, minimum_major := 1, minimum_minor := 3,
            dynamicRendering := true, synchronization2 := true,
            bufferDeviceAddress := true, descriptorIndexing := true,
            surface := surf } = none →
      phases (init env s).trace = phase_order.take 4 ∧
      (init env s).status = Status.value_failed) ∧
    (∀ (vi : VkbInstance) (surf pd : Handle),
      env.glfwInit = true →
      env.glfwCreateWindow ≠ 0 →
      env.instance_build
          { app_name := "Vulkan Engine", validation_layers := s.engine.r_validation_layers,
            default_debug_messenger := true, api_major := 1, api_minor := 3,
            api_patch := 0 } = some vi →
      env.glfwCreateWindowSurface vi.instance_ env.glfwCreateWindow = (0, surf) →
      env.select
          { instance_ := vi.instance_, minimum_major := 1, minimum_minor := 3,
            dynamicRendering := true, synchronization2 := true,
            bufferDeviceAddress := true, descriptorIndexing := true,
            surface := surf } = some pd →
      env.device_build pd = none →
      phases (init env s).trace = phase_order.take 5 ∧
      (init env s).status = Status.value_failed) ∧
    (∀ (vi : VkbInstance) (surf pd dev : Handle),
      env.glfwInit = true →
      env.glfwCreateWindow ≠ 0 →
      env.instance_build
          { app_name := "Vulkan Engine", validation_layers := s.engine.r_validation_layers,
            default_debug_messenger := true, api_major := 1, api_minor := 3,
            api_patch := 0 } = some vi →
      env.glfwCreateWindowSurface vi.instance_ env.glfwCreateWindow = (0, surf) →
      env.select
          { instance_ := vi.instance_, minimum_major := 1, minimum_minor := 3,
            dynamicRendering := true, synchronization2 := true,
            bufferDeviceAddress := true, descriptorIndexing := true,
            surface := surf } = some pd →
      env.device_build pd = some dev →
      env.swapchain_build
          { physical_device := pd, device := dev, surface := surf,
            desired_format := { format := VK_FORMAT_B8G8R8A8_UNORM,
                                colorSpace := VK_COLOR_SPACE_SRGB_NONLINEAR_KHR },
            desired_present_mode := VK_PRESENT_MODE_FIFO_KHR,
            desired_width := 1500, desired_height := 800,
            added_image_usage_flags := VK_IMAGE_USAGE_TRANSFER_DST_BIT } = none →
      phases (init env s).trace = phase_order.take 6 ∧
      (init env s).status = Status.value_failed) ∧
    (∀ (vi : VkbInstance) (surf pd dev : Handle) (sc : VkbSwapchain),
      env.glfwInit = true →
      env.glfwCreateWindow ≠ 0 →
      env.instance_build
          { app_name := "Vulkan Engine", validation_layers := s.engine.r_validation_layers,
            default_debug_messenger := true, api_major := 1, api_minor := 3,
            api_patch := 0 } = some vi →
      env.glfwCreateWindowSurface vi.instance_ env.glfwCreateWindow = (0, surf) →
      env.select
          { instance_ := vi.instance_, minimum_major := 1, minimum_minor := 3,
            dynamicRendering := true, synchronization2 := true,
            bufferDeviceAddress := true, descriptorIndexing := true,
            surface := surf } = some pd →
      env.device_build pd = some dev →
      env.swapchain_build
          { physical_device := pd, device := dev, surface := surf,
            desired_format := { format := VK_FORMAT_B8G8R8A8_UNORM,
                                colorSpace := VK_COLOR_SPACE_SRGB_NONLINEAR_KHR },
            desired_present_mode := VK_PRESENT_MODE_FIFO_KHR,
            desired_width := 1500, desired_height := 800,
            added_image_usage_flags := VK_IMAGE_USAGE_TRANSFER_DST_BIT } = some sc →
      (sc.images = none ∨ sc.image_views = none) →
      phases (init env s).trace = phase_order.take 6 ∧
      (init env s).status = Status.value_failed) := by
  have hflag := init_phases_is_init env s
  rw [h] at hflag
  obtain ⟨k, hk, hp, hok⟩ := init_phases_staged env s
  refine ⟨⟨k, by rw [init_trace, hp]⟩, ?_, ?_, hflag, ?_, ?_, ?_, ?_, ?_, ?_, ?_, ?_, ?_, ?_⟩
  · rw [init_status, init_trace]
    constructor
    · intro h1
      rw [hp, hok h1, List.take_length]
    · exact init_phases_ok_of_order env s
  · by_cases h1 : (init_phases env s).status = Status.ok
    · rw [init_of_phases_ok env s h1]
      simp
    · rw [init_of_phases_fail env s h1, hflag]
      simp [h1]
  · intro h1
    rw [init_status] at h1
    rw [init_of_phases_ok env s h1]
    simp
  · intro vi surf pd dev sc imgs views
    exact init_case_all_succeed env s vi surf pd dev sc imgs views
  · exact init_case_glfw_init_fails env s
  · exact init_case_window_fails env s
  · exact init_case_instance_fails env s
  · intro vi
    exact init_case_surface_fails env s vi h
  · intro vi surf
    exact init_case_select_fails env s vi surf
  · intro vi surf pd
    exact init_case_device_fails env s vi surf pd
  · intro vi surf pd dev
    exact init_case_swapchain_fails env s vi surf pd dev
  · intro vi surf pd dev sc
    exact init_case_images_fail env s vi surf pd dev sc

/-- C6 at `good_env`, from the state in which `init` has not run: all seventeen calls
    are made, the eight phases in order, `init` returns and the flag is up; and at
    `surface_fails_env`: three phases are entered and `init` throws. -/
theorem init_order_and_flag_witness :
    blank_state.engine.is_init = false ∧
    (
    init good_env blank_state =
      { state := live_state,
        trace :=
          [Call.glfwSetErrorCallback, Call.glfwInit true,
           Call.cout "glfw initialized successfully\n",
           Call.glfwWindowHint GLFW_CLIENT_API GLFW_NO_API,
           Call.glfwWindowHint GLFW_RESIZABLE GLFW_FALSE,
           Call.glfwCreateWindow 1500 800 "vulkan" 1,
           Call.cout "glfw window created successfully",
           Call.glfwSetKeyCallback 1,
           Call.instance_build
             { app_name := "Vulkan Engine", validation_layers := true,
               default_debug_messenger := true, api_major := 1, api_minor := 3,
               api_patch := 0 }
             (some { instance_ := 2, debug_messenger := 3 }),
           Call.glfwCreateWindowSurface 2 1 0 4,
           Call.select
             { instance_ := 2, minimum_major := 1, minimum_minor := 3,
               dynamicRendering := true, synchronization2 := true,
               bufferDeviceAddress := true, descriptorIndexing := true, surface := 4 }
             (some 5),
           Call.device_build 5 (some 6),
           Call.swapchain_build
             { physical_device := 5, device := 6, surface := 4,
               desired_format := { format := 44, colorSpace := 0 },
               desired_present_mode := 2, desired_width := 1500, desired_height := 800,
               added_image_usage_flags := 2 }
             (some 7),
           Call.get_images (some [10, 11]), Call.get_image_views (some [20, 21]),
           Call.init_commands, Call.init_sync_structures],
        status := Status.ok }) ∧
    phases (init good_env blank_state).trace = phase_order ∧
    (init good_env blank_state).state.engine.is_init = true ∧
    (phases (init surface_fails_env blank_state).trace = phase_order.take 3 ∧
      (init surface_fails_env blank_state).status =
        Status.threw "failed to create a window surface") :=
  ⟨rfl,
   (init_order_and_flag good_env blank_state rfl).2.2.2.2.2.1
     { instance_ := 2, debug_messenger := 3 } 4 5 6
     { swapchain := 7, extent := { width := 1500, height := 800 },
       images := some [10, 11], image_views := some [20, 21] }
     [10, 11] [20, 21] rfl (by decide) rfl rfl rfl rfl rfl rfl rfl,
   (init_order_and_flag good_env blank_state rfl).2.1.1 (by decide),
   (init_order_and_flag good_env blank_state rfl).2.2.1.2 (by decide),
   (init_order_and_flag surface_fails_env blank_state rfl).2.2.2.2.2.2.2.2.2.1
     { instance_ := 2, debug_messenger := 3 } rfl (by decide) rfl (by decide)⟩

/-! ## Creation and destruction order -/

/-- C5, the code at the failing input: `glfwCreateWindowSurface` answers -3 after the
    window, the instance and the debug messenger were created.  `init` throws
    "failed to create a window surface"; its last call is the failed
    `glfwCreateWindowSurface`, and no destruction call was made: the `terminate()` of
    the failure branch found `is_init` false. -/
theorem init_surface_failure_destroys_nothing :
    (init surface_fails_env blank_state).status =
      Status.threw "failed to create a window surface" ∧
    (init surface_fails_env blank_state).trace =
      [Call.glfwSetErrorCallback, Call.glfwInit true,
       Call.cout "glfw initialized successfully\n",
       Call.glfwWindowHint GLFW_CLIENT_API GLFW_NO_API,
       Call.glfwWindowHint GLFW_RESIZABLE GLFW_FALSE,
       Call.glfwCreateWindow 1500 800 "vulkan" 1,
       Call.cout "glfw window created successfully",
       Call.glfwSetKeyCallback 1,
       Call.instance_build
         { app_name := "Vulkan Engine", validation_layers := true,
           default_debug_messenger := true, api_major := 1, api_minor := 3, api_patch := 0 }
         (some { instance_ := 2, debug_messenger := 3 }),
       Call.glfwCreateWindowSurface 2 1 (-3) 0] ∧
    creations (init surface_fails_env blank_state).trace =
      [Resource.window, Resource.instance_, Resource.debug_messenger] ∧
    destructions (init surface_fails_env blank_state).trace = [] ∧
    (init surface_fails_env blank_state).trace.any Call.is_destruction = false ∧
    (terminate (init surface_fails_env blank_state).state).2 = [] := by
  decide

/-! ## `create_swapchain` -/

/-- C8: whatever `width` and `height`, a `create_swapchain` that returned asked the
    builder for format `B8G8R8A8_UNORM` in the sRGB non-linear colour space, present mode
    FIFO, the extent `(width, height)` and the transfer-destination usage flag, and left
    `swapchain_image_format` at `B8G8R8A8_UNORM`. -/
theorem create_swapchain_fixed_format (env : Env) (width height : Nat) (s : State)
    (h : (create_swapchain env width height s).status = Status.ok) :
    (∃ sc imgs views,
      (create_swapchain env width height s).trace =
        [Call.swapchain_build
           { physical_device := s.engine.physical_device, device := s.engine.device,
             surface := s.engine.surface,
             desired_format := { format := VK_FORMAT_B8G8R8A8_UNORM,
                                 colorSpace := VK_COLOR_SPACE_SRGB_NONLINEAR_KHR },
             desired_present_mode := VK_PRESENT_MODE_FIFO_KHR,
             desired_width := width, desired_height := height,
             added_image_usage_flags := VK_IMAGE_USAGE_TRANSFER_DST_BIT } (some sc),
         Call.get_images (some imgs), Call.get_image_views (some views)]) ∧
    (create_swapchain env width height s).state.engine.swapchain_image_format =
      VK_FORMAT_B8G8R8A8_UNORM := by
  simp only [create_swapchain] at h ⊢
  split
  · rename_i hb
    simp [hb] at h
  · rename_i sc hb
    simp only [hb] at h
    split
    · rename_i hi
      simp [hi] at h
    · rename_i imgs hi
      split
      · rename_i hv
        simp [hi, hv] at h
      · rename_i views hv
        exact ⟨⟨sc.swapchain, imgs, views, rfl⟩, rfl⟩

/-- C8 at `good_env`, for a 640 by 480 request on `live_state`. -/
theorem create_swapchain_fixed_format_witness :
    (∃ sc imgs views,
      (create_swapchain good_env 640 480 live_state).trace =
        [Call.swapchain_build
           { physical_device := live_state.engine.physical_device,
             device := live_state.engine.device,
             surface := live_state.engine.surface,
             desired_format := { format := VK_FORMAT_B8G8R8A8_UNORM,
                                 colorSpace := VK_COLOR_SPACE_SRGB_NONLINEAR_KHR },
             desired_present_mode := VK_PRESENT_MODE_FIFO_KHR,
             desired_width := 640, desired_height := 480,
             added_image_usage_flags := VK_IMAGE_USAGE_TRANSFER_DST_BIT } (some sc),
         Call.get_images (some imgs), Call.get_image_views (some views)]) ∧
    (create_swapchain good_env 640 480 live_state).state.engine.swapchain_image_format =
      VK_FORMAT_B8G8R8A8_UNORM :=
  create_swapchain_fixed_format good_env 640 480 live_state (by decide)

/-! ## `run` -/

theorem dispatch_key_callback (w : GlfwWindow) (x : Input) :
    (dispatch w x).key_callback = w.key_callback := by
  cases x with
  | key k sc a m =>
    simp only [dispatch, keyboardCallback, glfwSetWindowShouldClose]
    split_ifs <;> rfl
  | close_request => rfl

theorem dispatch_keeps_flag (w : GlfwWindow) (x : Input) (h : w.should_close = true) :
    (dispatch w x).should_close = true := by
  cases x with
  | key k sc a m =>
    simp only [dispatch, keyboardCallback, glfwSetWindowShouldClose]
    split_ifs <;> simp [h, GLFW_TRUE]
  | close_request => rfl

theorem foldl_dispatch_key_callback (l : List Input) (w : GlfwWindow) :
    (l.foldl dispatch w).key_callback = w.key_callback := by
  induction l generalizing w with
  | nil => rfl
  | cons x l ih => rw [List.foldl_cons, ih, dispatch_key_callback]

theorem foldl_dispatch_keeps_flag (l : List Input) (w : GlfwWindow)
    (h : w.should_close = true) : (l.foldl dispatch w).should_close = true := by
  induction l generalizing w with
  | nil => exact h
  | cons x l ih => rw [List.foldl_cons]; exact ih _ (dispatch_keeps_flag w x h)

theorem foldl_dispatch_escape (l : List Input) (w : GlfwWindow) (scancode mods : Int)
    (hk : w.key_callback = true)
    (hm : Input.key GLFW_KEY_ESCAPE scancode GLFW_PRESS mods ∈ l) :
    (l.foldl dispatch w).should_close = true := by
  induction l generalizing w with
  | nil => simp at hm
  | cons x l ih =>
    rw [List.foldl_cons]
    rcases List.mem_cons.mp hm with hx | hl
    · apply foldl_dispatch_keeps_flag
      rw [← hx]
      simp [dispatch, hk, keyboardCallback, glfwSetWindowShouldClose, GLFW_TRUE]
    · exact ih _ (by rw [dispatch_key_callback]; exact hk) hl

theorem iterations_succ (n : Nat) :
    iterations (n + 1) = [Call.glfwPollEvents, Call.draw] ++ iterations n := by
  simp [iterations, List.replicate_succ]

theorem after_polls_frame (polls : Nat → List Input) (n i : Nat) (s : State) :
    (after_polls polls i s n).engine = s.engine ∧
    (after_polls polls i s n).window = s.window ∧
    (after_polls polls i s n).glfw.key_callback = s.glfw.key_callback := by
  induction n generalizing i s with
  | zero => exact ⟨rfl, rfl, rfl⟩
  | succ n ih =>
    obtain ⟨h1, h2, h3⟩ := ih (i + 1) (draw (glfwPollEvents (polls i) s).1).1
    refine ⟨h1, h2, ?_⟩
    rw [after_polls, h3]
    simp [draw, glfwPollEvents, foldl_dispatch_key_callback]

theorem after_polls_snoc (polls : Nat → List Input) (n i : Nat) (s : State) :
    after_polls polls i s (n + 1) =
      (draw (glfwPollEvents (polls (i + n)) (after_polls polls i s n)).1).1 := by
  induction n generalizing i s with
  | zero => rfl
  | succ n ih =>
    have e : i + 1 + n = i + (n + 1) := by omega
    show after_polls polls (i + 1) (draw (glfwPollEvents (polls i) s).1).1 (n + 1) = _
    rw [ih (i + 1), e]
    rfl

theorem run_sound (polls : Nat → List Input) (fuel i : Nat) (s : State)
    (r : State × List Call) (h : run polls fuel i s = some r) :
    ∃ n, n < fuel ∧ r = (after_polls polls i s n, iterations n) ∧
      (after_polls polls i s n).glfw.should_close = true ∧
      ∀ m, m < n → (after_polls polls i s m).glfw.should_close = false := by
  induction fuel generalizing i s r with
  | zero => simp [run] at h
  | succ fuel ih =>
    rw [run] at h
    by_cases hc : s.glfw.should_close = true
    · rw [if_pos hc] at h
      refine ⟨0, by omega, ?_, hc, fun m hm => absurd hm (Nat.not_lt_zero m)⟩
      simpa [after_polls, iterations] using h.symm
    · rw [if_neg hc] at h
      simp only [Option.map_eq_some'] at h
      obtain ⟨r1, hr1, hr⟩ := h
      obtain ⟨n, hn, e, hcl, hmin⟩ := ih _ _ _ hr1
      refine ⟨n + 1, by omega, ?_, ?_, ?_⟩
      · rw [← hr, e, iterations_succ]
        simp [after_polls, glfwPollEvents, draw]
      · rw [after_polls]; exact hcl
      · intro m hm
        cases m with
        | zero => simpa [after_polls] using hc
        | succ m => rw [after_polls]; exact hmin m (by omega)

theorem run_complete (polls : Nat → List Input) (n fuel i : Nat) (s : State)
    (hn : n < fuel) (hcl : (after_polls polls i s n).glfw.should_close = true)
    (hmin : ∀ m, m < n → (after_polls polls i s m).glfw.should_close = false) :
    run polls fuel i s = some (after_polls polls i s n, iterations n) := by
  induction n generalizing fuel i s with
  | zero =>
    obtain ⟨f, rfl⟩ : ∃ f, fuel = f + 1 := ⟨fuel - 1, by omega⟩
    rw [run, if_pos (by simpa [after_polls] using hcl)]
    simp [after_polls, iterations]
  | succ n ih =>
    obtain ⟨f, rfl⟩ : ∃ f, fuel = f + 1 := ⟨fuel - 1, by omega⟩
    have h0 : s.glfw.should_close = false := by simpa [after_polls] using hmin 0 (by omega)
    rw [run, if_neg (by simp [h0])]
    rw [after_polls] at hcl
    dsimp only
    rw [ih f (i + 1) _ (by omega) hcl (fun m hm => by
      have := hmin (m + 1) (by omega)
      rwa [after_polls] at this)]
    simp [after_polls, iterations_succ, glfwPollEvents, draw]

theorem run_returns_by (polls : Nat → List Input) (N i : Nat) (s : State)
    (h : (after_polls polls i s N).glfw.should_close = true) :
    ∃ n, n ≤ N ∧ run polls (N + 1) i s = some (after_polls polls i s n, iterations n) := by
  classical
  have hex : ∃ n, (after_polls polls i s n).glfw.should_close = true := ⟨N, h⟩
  refine ⟨Nat.find hex, Nat.find_min' hex h, ?_⟩
  apply run_complete
  · have := Nat.find_min' hex h
    omega
  · exact Nat.find_spec hex
  · intro m hm
    have := Nat.find_min hex hm
    simpa using this

theorem iterations_no_destruction (n : Nat) :
    (iterations n).any Call.is_destruction = false := by
  induction n with
  | zero => rfl
  | succ n ih =>
    rw [iterations_succ, List.any_append, ih]
    rfl

theorem after_polls_escape (polls : Nat → List Input) (i k : Nat) (s : State)
    (scancode mods : Int) (hk : s.glfw.key_callback = true)
    (hm : Input.key GLFW_KEY_ESCAPE scancode GLFW_PRESS mods ∈ polls (i + k)) :
    (after_polls polls i s (k + 1)).glfw.should_close = true := by
  rw [after_polls_snoc]
  simp only [draw, glfwPollEvents]
  exact foldl_dispatch_escape _ _ scancode mods
    (by rw [(after_polls_frame polls k i s).2.2]; exact hk) hm

/-- C7: (1) with the close-request flag up on entry `run` returns at once, without a
    call; (2) whenever `run` returns it has made `n` iterations, each one
    `glfwPollEvents` followed by one `draw` and nothing else (no destruction call), the
    flag was down at each of the `n` loop checks that let an iteration in and up at the
    one that ended the loop, engine and window are as on entry; (3) when an escape press
    is delivered to the installed `keyboardCallback` during the poll of iteration
    `k + 1`, the flag is up at the next loop check and `run` returns then, after exactly
    `k + 1` iterations if the flag was down at all checks before. -/
theorem run_loop (polls : Nat → List Input) (i : Nat) (s : State) :
    (s.glfw.should_close = true → ∀ fuel, run polls (fuel + 1) i s = some (s, [])) ∧
    (∀ fuel r, run polls fuel i s = some r →
      ∃ n, r.2 = iterations n ∧ r.1 = after_polls polls i s n ∧
        r.1.glfw.should_close = true ∧
        (∀ m, m < n → (after_polls polls i s m).glfw.should_close = false) ∧
        r.1.engine = s.engine ∧ r.1.window = s.window ∧
        r.2.any Call.is_destruction = false) ∧
    (∀ k scancode mods, s.glfw.key_callback = true →
      Input.key GLFW_KEY_ESCAPE scancode GLFW_PRESS mods ∈ polls (i + k) →
      (after_polls polls i s (k + 1)).glfw.should_close = true ∧
      (∃ n, n ≤ k + 1 ∧
        run polls (k + 2) i s = some (after_polls polls i s n, iterations n)) ∧
      ((∀ m, m ≤ k → (after_polls polls i s m).glfw.should_close = false) →
        run polls (k + 2) i s =
          some (after_polls polls i s (k + 1), iterations (k + 1)))) := by
  refine ⟨?_, ?_, ?_⟩
  · intro h fuel
    rw [run, if_pos h]
  · intro fuel r h
    obtain ⟨n, -, e, hcl, hmin⟩ := run_sound polls fuel i s r h
    obtain ⟨f1, f2, -⟩ := after_polls_frame polls n i s
    subst e
    exact ⟨n, rfl, rfl, hcl, hmin, f1, f2, iterations_no_destruction n⟩
  · intro k scancode mods hk hm
    have hcl := after_polls_escape polls i k s scancode mods hk hm
    refine ⟨hcl, run_returns_by polls (k + 1) i s hcl, ?_⟩
    intro hdown
    exact run_complete polls (k + 1) (k + 2) i s (by omega) hcl
      (fun m hm => hdown m (by omega))

/-- C7 on a concrete run: `keyboardCallback` is installed, the escape press comes with
    the third poll, and `run` returns after exactly three iterations. -/
theorem run_loop_witness :
    run escape_at_third_poll 4 0 live_state =
      some (after_polls escape_at_third_poll 0 live_state 3, iterations 3) :=
  ((run_loop escape_at_third_poll 0 live_state).2.2 2 9 0 rfl (by decide)).2.2 (by decide)

end Tnamc
